import Mathlib

/-
Verification of the segment-processing pipeline of the Atenas repository.

The definitions below are a shallow embedding of the orchestration code in
backend/django-rest-api/apps/api/tasks.py and of the upload request handler
in backend/django-rest-api/apps/transcriptions/views.py.  Database rows
become Lean structures, status strings become enumerations, the Celery task
bodies become pure functions returning the updated row together with
observable effects (number of enqueued tasks, number of external LM calls),
and the Python substring tests used for error classification are embedded
as executable functions on character lists.
-/

namespace Atenas

/-! ### String helpers (embedding of Python string operations)

Python tests such as (needle in haystack), s.lower() and s.strip() are used
by the source for refusal detection and error classification.  They are
embedded structurally over the character list of a string so that every
proof can evaluate them inside the kernel. -/

/-- Embedding of list equality on a leading run: leadsWith n h is true when
n is an initial run of h.  Auxiliary for the Python substring test. -/
def leadsWith : List Char → List Char → Bool
  | [], _ => true
  | _ :: _, [] => false
  | a :: as, b :: bs => (a = b) && leadsWith as bs

/-- Embedding of the Python substring containment test on character lists. -/
def hasSub (needle : List Char) : List Char → Bool
  | [] => leadsWith needle []
  | c :: t => leadsWith needle (c :: t) || hasSub needle t

/-- Python needle in hay, on strings. -/
def strContains (hay needle : String) : Bool :=
  hasSub needle.data hay.data

/-- Character-list lowercasing, embedding Python str.lower. -/
def lowerList : List Char → List Char
  | [] => []
  | c :: t => c.toLower :: lowerList t

/-- Python str.lower. -/
def strLower (s : String) : String :=
  ⟨lowerList s.data⟩

/-- Whitespace test used by Python str.strip. -/
def isWs (c : Char) : Bool :=
  (c = ' ') || (c = '\n') || (c = '\t') || (c = '\r')

/-- Drop leading whitespace from a character list. -/
def dropWsLeft : List Char → List Char
  | [] => []
  | c :: t => if isWs c then dropWsLeft t else c :: t

/-- Python str.strip: remove leading and trailing whitespace. -/
def strStrip (s : String) : String :=
  ⟨(dropWsLeft (dropWsLeft s.data).reverse).reverse⟩

/-- Python falsiness test for a string: empty means falsy. -/
def strIsEmpty (s : String) : Bool :=
  s.data.isEmpty

/-- Python truthiness of a nullable text column (None or empty is falsy). -/
def optTruthy : Option String → Bool
  | none => false
  | some s => !(strIsEmpty s)

/-! ### Data model (apps/api/models.py)

TranscriptionChunk.status takes the values ready, transcribing, done,
summarized, failed; Transcription.status additionally takes uploaded,
chunked, transcribed, summarizing, done.  Summary is kept as a Bool
(existence) plus a creation counter in the task results, since the claims
are about row counts, not contents. -/

/-- Status values of a TranscriptionChunk (a spec Segment). -/
inductive SegStatus where
  | ready
  | transcribing
  | done
  | summarized
  | failed
deriving DecidableEq, Repr

/-- Status values of a Transcription (a spec Job). -/
inductive JobStatus where
  | queued
  | uploaded
  | chunked
  | transcribing
  | transcribed
  | summarizing
  | done
  | failed
deriving DecidableEq, Repr

/-- Count of segments having a given status, embedding the Django
aggregate Count with a status filter. -/
def countStatus (s : SegStatus) (l : List SegStatus) : Nat :=
  l.countP (fun x => decide (x = s))

/-- A Transcription row (spec Job) together with the statuses of its
chunks, which is the state the rollup and finalization code reads. -/
structure Transcription where
  status : JobStatus
  segs : List SegStatus
  summaryExists : Bool
  tempCustomPrompt : Option String
deriving DecidableEq, Repr

/-- A TranscriptionChunk row (spec Segment) as read by the summarization
task: status, nullable transcript text, nullable summary text. -/
structure TranscriptionChunk where
  status : SegStatus
  text : Option String
  summary : Option String
deriving DecidableEq, Repr

/-! ### RollupCoordinator (_check_transcription_completion, tasks.py 223-285) -/

/-- The status the rollup computes from the chunk statuses alone:
if done + summarized = total then transcribed, else if no chunk is ready
or transcribing and at least one failed then failed, else transcribing. -/
def rollupStatus (segs : List SegStatus) : JobStatus :=
  let total := segs.length
  let doneC := countStatus SegStatus.done segs
  let summC := countStatus SegStatus.summarized segs
  let failedC := countStatus SegStatus.failed segs
  let processingC := countStatus SegStatus.transcribing segs + countStatus SegStatus.ready segs
  if doneC + summC = total then JobStatus.transcribed
  else if processingC = 0 ∧ 0 < failedC then JobStatus.failed
  else JobStatus.transcribing

/-- The condition under which _check_transcription_completion enqueues
start_chunk_summarization: all chunks done or summarized, at least one
done, none summarized yet.  The source tests this inside the first rollup
branch with no reference to the current Transcription status. -/
def fanOutCondition (segs : List SegStatus) : Bool :=
  decide (countStatus SegStatus.done segs + countStatus SegStatus.summarized segs = segs.length)
    && decide (0 < countStatus SegStatus.done segs)
    && decide (countStatus SegStatus.summarized segs = 0)

/-- Embedding of _check_transcription_completion: returns the updated
Transcription (status written only when it differs, which yields the same
row either way) and whether the summarization fan-out task was enqueued
during this invocation. -/
def checkTranscriptionCompletion (t : Transcription) : Transcription × Bool :=
  let ns := rollupStatus t.segs
  (if t.status = ns then t else { t with status := ns }, fanOutCondition t.segs)

/-! ### FinalSynthesizer guard (_check_and_generate_final_summary, tasks.py 501-549) -/

/-- Embedding of _check_and_generate_final_summary: under the row lock it
aborts when a Summary row exists or the status is already summarizing or
done; otherwise it sets the status to summarizing and enqueues
generate_final_summary once.  The outer fan-in condition requires every
done-or-summarized chunk to be summarized and at least one such chunk.
Returns the updated Transcription and the number of enqueued
generate_final_summary tasks. -/
def checkAndGenerateFinalSummary (t : Transcription) : Transcription × Nat :=
  let doneOr := countStatus SegStatus.done t.segs + countStatus SegStatus.summarized t.segs
  let summC := countStatus SegStatus.summarized t.segs
  if 0 < doneOr ∧ summC = doneOr then
    if t.summaryExists then (t, 0)
    else if t.status = JobStatus.summarizing ∨ t.status = JobStatus.done then (t, 0)
    else ({ t with status := JobStatus.summarizing }, 1)
  else (t, 0)

/-! ### Groq call layer (_call_groq_api, tasks.py 418-498) -/

/-- Refusal patterns tested by _call_groq_api on the stripped response. -/
def refusalDetected (s : String) : Bool :=
  strContains s "Lo siento" || strContains s "no puedo cumplir" || strContains s "cannot fulfill"

/-- Rate-limit classification used by the task bodies:
rate_limit in msg.lower() or 429 in msg. -/
def rateLimitLike (e : String) : Bool :=
  strContains (strLower e) "rate_limit" || strContains e "429"

/-- Timeout classification used by generate_chunk_summary:
timeout in msg.lower() or timed out in msg.lower(). -/
def timeoutLike (e : String) : Bool :=
  strContains (strLower e) "timeout" || strContains (strLower e) "timed out"

/-- Result dictionary of _call_groq_api. -/
inductive GroqCallResult where
  | success (summary : String)
  | failure (error : String)
deriving DecidableEq, Repr

/-- Outcome of one _call_groq_api invocation: the result dictionary and the
number of chat-completion calls actually issued to the external LM. -/
structure GroqCallOutcome where
  result : GroqCallResult
  lmCalls : Nat
deriving DecidableEq, Repr

/-- Embedding of _call_groq_api.  The external LM behaviour is passed in as
an Except value: error e models an exception raised by the client call and
ok content models a returned message content.  The missing-key check comes
first and issues no call; on a returned text the refusal patterns are
tested before the emptiness test, exactly as in the source. -/
def callGroqApi (apiKeyPresent : Bool) (lm : Except String String) : GroqCallOutcome :=
  if ¬ apiKeyPresent then ⟨GroqCallResult.failure "missing_groq_api_key", 0⟩
  else
    match lm with
    | Except.error e => ⟨GroqCallResult.failure ("groq_api_error: " ++ e), 1⟩
    | Except.ok content =>
        let summary := strStrip content
        if refusalDetected summary then
          ⟨GroqCallResult.failure "content_rejected_by_model", 1⟩
        else if strIsEmpty summary then
          ⟨GroqCallResult.failure "empty_response_from_groq", 1⟩
        else
          ⟨GroqCallResult.success summary, 1⟩

/-! ### SummaryWorker (generate_chunk_summary, tasks.py 292-391) -/

/-- Return value of a task body: either a returned result dictionary with a
status string and a reason or error string, or a celery retry with the
given countdown. -/
inductive TaskOutcome where
  | returned (status : String) (info : String)
  | retried (countdown : Nat)
deriving DecidableEq, Repr

/-- Observable result of one generate_chunk_summary run: the task outcome,
the chunk row as left in the database, the number of external LM calls, and
whether _check_and_generate_final_summary was invoked. -/
structure ChunkSummaryRun where
  outcome : TaskOutcome
  chunk : TranscriptionChunk
  lmCalls : Nat
  finalCheckInvoked : Bool
deriving DecidableEq, Repr

/-- Embedding of generate_chunk_summary.  The duplicate guard (summary
present and status summarized) and the precondition guard (text present
and status done) both return skipped before the Groq call; on success the
summary is stored and the status set to summarized and the fan-in check is
invoked; on failure the error is classified by substring and either
retried (rate limit always, timeout while retries remain) or returned as
failed with the chunk untouched. -/
def generateChunkSummary (chunk : TranscriptionChunk) (retries maxRetries : Nat)
    (apiKeyPresent : Bool) (lm : Except String String) : ChunkSummaryRun :=
  if optTruthy chunk.summary && decide (chunk.status = SegStatus.summarized) then
    ⟨TaskOutcome.returned "skipped" "already_summarized", chunk, 0, false⟩
  else if !(optTruthy chunk.text) || decide (chunk.status ≠ SegStatus.done) then
    ⟨TaskOutcome.returned "skipped" "chunk_not_transcribed", chunk, 0, false⟩
  else
    let g := callGroqApi apiKeyPresent lm
    match g.result with
    | GroqCallResult.success s =>
        ⟨TaskOutcome.returned "success" "",
         { chunk with summary := some s, status := SegStatus.summarized },
         g.lmCalls, true⟩
    | GroqCallResult.failure e =>
        if rateLimitLike e then
          ⟨TaskOutcome.retried 90, chunk, g.lmCalls, false⟩
        else if timeoutLike e && decide (retries < maxRetries) then
          ⟨TaskOutcome.retried 90, chunk, g.lmCalls, false⟩
        else
          ⟨TaskOutcome.returned "failed" e, chunk, g.lmCalls, false⟩

/-! ### FinalSynthesizer task (generate_final_summary, tasks.py 552-702) -/

/-- Observable result of one generate_final_summary run: the Transcription
row as left in the database, the task outcome, the number of external LM
calls, and the number of Summary rows created. -/
structure FinalSummaryRun where
  job : Transcription
  outcome : TaskOutcome
  lmCalls : Nat
  summariesCreated : Nat
deriving DecidableEq, Repr

/-- Embedding of generate_final_summary.  Early duplicate check: when a
Summary row exists the task forces the status to done and returns skipped
without calling the LM.  When no chunk is summarized it returns failed
without calling the LM.  Otherwise it calls the LM once; on success it
creates the Summary row, sets the status to done and clears the one-shot
custom prompt; on a rate-limit-classified failure it retries; on any other
failure it sets the status to failed. -/
def generateFinalSummary (t : Transcription) (apiKeyPresent : Bool)
    (lm : Except String String) : FinalSummaryRun :=
  if t.summaryExists then
    ⟨(if t.status = JobStatus.done then t else { t with status := JobStatus.done }),
     TaskOutcome.returned "skipped" "summary_already_exists", 0, 0⟩
  else if countStatus SegStatus.summarized t.segs = 0 then
    ⟨t, TaskOutcome.returned "failed" "no_summarized_chunks", 0, 0⟩
  else
    let g := callGroqApi apiKeyPresent lm
    match g.result with
    | GroqCallResult.success _ =>
        ⟨{ t with summaryExists := true, status := JobStatus.done, tempCustomPrompt := none },
         TaskOutcome.returned "success" "", g.lmCalls, 1⟩
    | GroqCallResult.failure e =>
        if rateLimitLike e then
          ⟨t, TaskOutcome.retried 90, g.lmCalls, 0⟩
        else
          ⟨{ t with status := JobStatus.failed }, TaskOutcome.returned "failed" e, g.lmCalls, 0⟩

/-! ### RateLimiter (_wait_for_rate_limit, tasks.py 58-103)

The source reads the shared counter each attempt, increments it only when
usage plus the requested tokens fits under the budget, and otherwise
sleeps five seconds and retries, for max_wait_time // 5 attempts.  The
model below covers calls issued back to back inside one window with no
concurrent mutator: the counter read at every attempt is then the counter
left by the previous call, so the state is a single Nat. -/

/-- Groq free-tier budget: int(12000 * 0.75) = 9000 tokens per minute. -/
def groqMaxTokensPerMinute : Nat := 12000 * 75 / 100

/-- One attempt loop of _wait_for_rate_limit with a constant observed
counter (no expiry and no concurrent writer inside the window).  Returns
(granted, new counter value, seconds slept). -/
def waitAttemptLoop (counter tokens : Nat) : Nat → Bool × Nat × Nat
  | 0 => (false, counter, 0)
  | Nat.succ n =>
      if counter + tokens ≤ groqMaxTokensPerMinute then
        (true, counter + tokens, 0)
      else
        let r := waitAttemptLoop counter tokens n
        (r.1, r.2.1, r.2.2 + 5)

/-- Embedding of _wait_for_rate_limit: when the Redis client is absent it
returns False immediately with no increment; otherwise it runs
max_wait_time // 5 attempts of the check-increment-or-sleep loop. -/
def waitForRateLimit (redisAvailable : Bool) (counter tokens maxWaitTime : Nat) :
    Bool × Nat × Nat :=
  if ¬ redisAvailable then (false, counter, 0)
  else waitAttemptLoop counter tokens (maxWaitTime / 5)

/-- Counter left by a back-to-back sequence of reserve calls inside one
window, each request given as (tokens, maxWaitTime). -/
def runReserveSequence (counter : Nat) : List (Nat × Nat) → Nat
  | [] => counter
  | (tk, mw) :: rest => runReserveSequence (waitForRateLimit true counter tk mw).2.1 rest

/-! ### SyncUploadHandler (upload, apps/transcriptions/views.py 20-96)

The upload view validates the multipart body, creates the Transcription,
synchronously chunks the audio (every created chunk has status ready),
sets the status to transcribing, enqueues one transcribe_chunk task per
chunk and immediately returns 201 with the serialized row.  There is no
poll loop anywhere in the function.  Failure branches: invalid body gives
400 with no row committed, a chunking exception sets the status to failed
and gives 500, a failure of the enqueue block reverts the status to
chunked and still gives 201. -/

/-- Response of the upload view: HTTP status code plus the Transcription
row as committed when the response is produced (none for 400). -/
structure UploadResult where
  code : Nat
  job : Option Transcription
deriving DecidableEq, Repr

/-- Embedding of the upload view.  valid models serializer.is_valid(),
chunkingOk models the chunking service succeeding, enqueueOk models the
auto-start block succeeding, numChunks is the number of chunks the
splitter produced. -/
def upload (valid chunkingOk enqueueOk : Bool) (numChunks : Nat) : UploadResult :=
  if ¬ valid then
    { code := 400, job := none }
  else if ¬ chunkingOk then
    { code := 500,
      job := some { status := JobStatus.failed, segs := [],
                    summaryExists := false, tempCustomPrompt := none } }
  else if ¬ enqueueOk then
    { code := 201,
      job := some { status := JobStatus.chunked,
                    segs := List.replicate numChunks SegStatus.ready,
                    summaryExists := false, tempCustomPrompt := none } }
  else
    { code := 201,
      job := some { status := JobStatus.transcribing,
                    segs := List.replicate numChunks SegStatus.ready,
                    summaryExists := false, tempCustomPrompt := none } }

/-! ### Helper lemmas about status counting and the rollup -/

theorem countStatus_eq_zero {s : SegStatus} {l : List SegStatus} :
    countStatus s l = 0 ↔ ∀ x ∈ l, x ≠ s := by
  simp [countStatus, List.countP_eq_zero]

theorem countStatus_pos {s : SegStatus} {l : List SegStatus} :
    0 < countStatus s l ↔ ∃ x ∈ l, x = s := by
  simp [countStatus, List.countP_pos_iff]

theorem countStatus_perm (s : SegStatus) {l l2 : List SegStatus} (h : l.Perm l2) :
    countStatus s l = countStatus s l2 :=
  h.countP_eq _

theorem rollupStatus_eq_transcribed {segs : List SegStatus}
    (h : countStatus SegStatus.done segs + countStatus SegStatus.summarized segs = segs.length) :
    rollupStatus segs = JobStatus.transcribed := by
  simp [rollupStatus, h]

theorem rollupStatus_eq_failed {segs : List SegStatus}
    (h1 : countStatus SegStatus.done segs + countStatus SegStatus.summarized segs ≠ segs.length)
    (h2 : countStatus SegStatus.transcribing segs = 0)
    (h3 : countStatus SegStatus.ready segs = 0)
    (h4 : 0 < countStatus SegStatus.failed segs) :
    rollupStatus segs = JobStatus.failed := by
  simp [rollupStatus, h1, h2, h3, h4]

theorem rollupStatus_eq_transcribing {segs : List SegStatus}
    (h1 : countStatus SegStatus.done segs + countStatus SegStatus.summarized segs ≠ segs.length)
    (h2 : ¬ (countStatus SegStatus.transcribing segs + countStatus SegStatus.ready segs = 0 ∧
              0 < countStatus SegStatus.failed segs)) :
    rollupStatus segs = JobStatus.transcribing := by
  simp only [rollupStatus]
  rw [if_neg h1, if_neg h2]

/-- Observable effect of one rollup invocation: the written status is the
pure function rollupStatus of the segment statuses, the segment list and
summary flag are untouched, and the fan-out flag is fanOutCondition. -/
theorem checkCompletion_effect (t : Transcription) :
    (checkTranscriptionCompletion t).1.status = rollupStatus t.segs ∧
    (checkTranscriptionCompletion t).1.segs = t.segs ∧
    (checkTranscriptionCompletion t).1.summaryExists = t.summaryExists ∧
    (checkTranscriptionCompletion t).2 = fanOutCondition t.segs := by
  unfold checkTranscriptionCompletion
  by_cases h : t.status = rollupStatus t.segs <;> simp [h]

/-- A row whose status already equals the rollup of its segments is a fixed
point of the rollup invocation. -/
theorem checkCompletion_fixed {v : Transcription} (hv : v.status = rollupStatus v.segs) :
    (checkTranscriptionCompletion v).1 = v := by
  simp [checkTranscriptionCompletion, hv]

/-! ### Claim C2 -/

/-- C2: the status written by the rollup is a pure function of the multiset
of segment statuses: if the count of done plus summarized segments equals
the total, the Job status becomes transcribed; else if no segment is ready
or transcribing and at least one is failed, it becomes failed; else it
becomes transcribing.  The final conjuncts record that the function is
multiset-invariant and that the written status does not depend on the
current Job status, the summary flag or the stored prompt. -/
theorem C2_rollup_status_pure (segs : List SegStatus) :
    (countStatus SegStatus.done segs + countStatus SegStatus.summarized segs = segs.length →
       rollupStatus segs = JobStatus.transcribed) ∧
    (countStatus SegStatus.done segs + countStatus SegStatus.summarized segs ≠ segs.length →
       (∀ x ∈ segs, x ≠ SegStatus.ready ∧ x ≠ SegStatus.transcribing) →
       (∃ x ∈ segs, x = SegStatus.failed) →
       rollupStatus segs = JobStatus.failed) ∧
    (countStatus SegStatus.done segs + countStatus SegStatus.summarized segs ≠ segs.length →
       ((∃ x ∈ segs, x = SegStatus.ready ∨ x = SegStatus.transcribing) ∨
         (∀ x ∈ segs, x ≠ SegStatus.failed)) →
       rollupStatus segs = JobStatus.transcribing) ∧
    (∀ segs2 : List SegStatus, segs.Perm segs2 → rollupStatus segs = rollupStatus segs2) ∧
    (∀ (st : JobStatus) (sum : Bool) (p : Option String),
       (checkTranscriptionCompletion ⟨st, segs, sum, p⟩).1.status = rollupStatus segs) := by
  refine ⟨fun h => rollupStatus_eq_transcribed h, ?_, ?_, ?_, ?_⟩
  · intro h1 h2 h3
    refine rollupStatus_eq_failed h1
      (countStatus_eq_zero.mpr fun x hx => (h2 x hx).2)
      (countStatus_eq_zero.mpr fun x hx => (h2 x hx).1)
      (countStatus_pos.mpr h3)
  · intro h1 h2
    refine rollupStatus_eq_transcribing h1 ?_
    rintro ⟨hproc, hfail⟩
    rcases h2 with ⟨x, hx, hr | ht⟩ | hnone
    · have : 0 < countStatus SegStatus.ready segs := countStatus_pos.mpr ⟨x, hx, hr⟩
      omega
    · have : 0 < countStatus SegStatus.transcribing segs := countStatus_pos.mpr ⟨x, hx, ht⟩
      omega
    · have : countStatus SegStatus.failed segs = 0 := countStatus_eq_zero.mpr hnone
      omega
  · intro segs2 hp
    simp only [rollupStatus]
    rw [hp.length_eq, countStatus_perm SegStatus.done hp,
      countStatus_perm SegStatus.summarized hp, countStatus_perm SegStatus.failed hp,
      countStatus_perm SegStatus.transcribing hp, countStatus_perm SegStatus.ready hp]
  · intro st sum p
    exact (checkCompletion_effect ⟨st, segs, sum, p⟩).1

/-- Witness for C2 at a concrete segment multiset. -/
theorem C2_rollup_status_pure_witness :
    rollupStatus [SegStatus.done, SegStatus.summarized] = JobStatus.transcribed :=
  (C2_rollup_status_pure [SegStatus.done, SegStatus.summarized]).1 (by decide)

/-! ### Claim C3 -/

/-- C3 counterexample: a Job whose status is done and whose segments are
all summarized is moved back to transcribed by the next rollup invocation,
so the status does regress from done under the rollup. -/
theorem C3_done_regression_counterexample :
    (checkTranscriptionCompletion
        ⟨JobStatus.done, [SegStatus.summarized, SegStatus.summarized], true, none⟩).1.status
      = JobStatus.transcribed ∧
    JobStatus.transcribed ≠ JobStatus.done := by
  decide

/-- C3 (amended): the rollup writes a status computed purely from the
segment statuses and ignores the current Job status entirely, so a Job at
done is regressed to transcribed or transcribing by a later rollup; the
only non-regression the rollup itself provides is idempotence — a second
invocation with unchanged segment statuses leaves the row fixed. -/
theorem C3_rollup_ignores_prior_status (t u : Transcription) (h : t.segs = u.segs) :
    (checkTranscriptionCompletion t).1.status = (checkTranscriptionCompletion u).1.status ∧
    (checkTranscriptionCompletion t).1.segs = t.segs ∧
    (checkTranscriptionCompletion (checkTranscriptionCompletion t).1).1 =
      (checkTranscriptionCompletion t).1 := by
  obtain ⟨hs, hsegs, -, -⟩ := checkCompletion_effect t
  obtain ⟨hs2, -, -, -⟩ := checkCompletion_effect u
  refine ⟨by rw [hs, hs2, h], hsegs, ?_⟩
  have key : (checkTranscriptionCompletion t).1.status =
      rollupStatus (checkTranscriptionCompletion t).1.segs := by
    rw [hsegs]; exact hs
  exact checkCompletion_fixed key

/-- Witness for C3 (amended) at concrete rows differing only in status. -/
theorem C3_rollup_ignores_prior_status_witness :
    (checkTranscriptionCompletion
        ⟨JobStatus.done, [SegStatus.done], false, none⟩).1.status =
      (checkTranscriptionCompletion
        ⟨JobStatus.transcribing, [SegStatus.done], false, none⟩).1.status :=
  (C3_rollup_ignores_prior_status
    ⟨JobStatus.done, [SegStatus.done], false, none⟩
    ⟨JobStatus.transcribing, [SegStatus.done], false, none⟩ rfl).1

/-! ### Claim C4 -/

/-- C4 counterexample: with all segments done and none summarized, two
successive rollup invocations both enqueue the summarization fan-out, so
the fan-out does not happen at most once. -/
theorem C4_fanout_double_fire_counterexample :
    (checkTranscriptionCompletion
        ⟨JobStatus.transcribing, [SegStatus.done, SegStatus.done], false, none⟩).2 = true ∧
    (checkTranscriptionCompletion
        (checkTranscriptionCompletion
          ⟨JobStatus.transcribing, [SegStatus.done, SegStatus.done], false, none⟩).1).2 = true := by
  decide

/-- C4 (amended): the rollup fires the summarization fan-out on every
invocation made while the segment condition (all chunks done or
summarized, at least one done, none summarized) holds; there is no guard
on the Job status, so a repeated invocation with unchanged segment
statuses fires the fan-out again. -/
theorem C4_fanout_fires_every_invocation (t : Transcription)
    (h : fanOutCondition t.segs = true) :
    (checkTranscriptionCompletion t).2 = true ∧
    (checkTranscriptionCompletion (checkTranscriptionCompletion t).1).2 = true := by
  obtain ⟨-, hsegs, -, hfan⟩ := checkCompletion_effect t
  obtain ⟨-, -, -, hfan2⟩ := checkCompletion_effect (checkTranscriptionCompletion t).1
  exact ⟨by rw [hfan, h], by rw [hfan2, hsegs, h]⟩

/-- Witness for C4 (amended) at a concrete all-done Job. -/
theorem C4_fanout_fires_every_invocation_witness :
    (checkTranscriptionCompletion
        ⟨JobStatus.transcribed, [SegStatus.done], false, none⟩).2 = true :=
  (C4_fanout_fires_every_invocation
    ⟨JobStatus.transcribed, [SegStatus.done], false, none⟩ (by decide)).1

/-! ### Claim C1 -/

/-- C1: the finalization attempt aborts silently (enqueues nothing and
changes nothing) whenever a Summary row already exists or the Job status
is already summarizing or done; otherwise it sets the status to
summarizing and enqueues exactly one final-summary task.  Two sequential
invocations (the serialization the exclusive row lock produces) enqueue
exactly one task, and running that one task with a successful LM response
creates exactly one Summary row with exactly one external LM call. -/
theorem C1_final_summary_single_flight (t : Transcription) (s : String)
    (hfan1 : 0 < countStatus SegStatus.done t.segs + countStatus SegStatus.summarized t.segs)
    (hfan2 : countStatus SegStatus.summarized t.segs =
      countStatus SegStatus.done t.segs + countStatus SegStatus.summarized t.segs)
    (hnosum : t.summaryExists = false)
    (hstat1 : t.status ≠ JobStatus.summarizing)
    (hstat2 : t.status ≠ JobStatus.done)
    (href : refusalDetected (strStrip s) = false)
    (hne : strIsEmpty (strStrip s) = false) :
    (∀ t2 : Transcription,
        t2.summaryExists = true ∨ t2.status = JobStatus.summarizing ∨ t2.status = JobStatus.done →
        checkAndGenerateFinalSummary t2 = (t2, 0)) ∧
    checkAndGenerateFinalSummary t = ({ t with status := JobStatus.summarizing }, 1) ∧
    checkAndGenerateFinalSummary (checkAndGenerateFinalSummary t).1 =
      ((checkAndGenerateFinalSummary t).1, 0) ∧
    (generateFinalSummary (checkAndGenerateFinalSummary t).1 true (Except.ok s)).summariesCreated
      = 1 ∧
    (generateFinalSummary (checkAndGenerateFinalSummary t).1 true (Except.ok s)).lmCalls = 1 ∧
    (generateFinalSummary (checkAndGenerateFinalSummary t).1 true (Except.ok s)).job.summaryExists
      = true ∧
    (generateFinalSummary (checkAndGenerateFinalSummary t).1 true (Except.ok s)).job.status
      = JobStatus.done := by
  have habort : ∀ t2 : Transcription,
      t2.summaryExists = true ∨ t2.status = JobStatus.summarizing ∨ t2.status = JobStatus.done →
      checkAndGenerateFinalSummary t2 = (t2, 0) := by
    intro t2 h2
    simp only [checkAndGenerateFinalSummary]
    split_ifs with hc hse hst
    · rfl
    · rfl
    · rcases h2 with hse2 | hst2
      · exact absurd hse2 (by simpa using hse)
      · exact absurd hst2 hst
    · rfl
  have hmain : checkAndGenerateFinalSummary t = ({ t with status := JobStatus.summarizing }, 1) := by
    simp only [checkAndGenerateFinalSummary]
    rw [if_pos ⟨hfan1, hfan2⟩]
    simp [hnosum, hstat1, hstat2]
  have hsecond : checkAndGenerateFinalSummary (checkAndGenerateFinalSummary t).1 =
      ((checkAndGenerateFinalSummary t).1, 0) := by
    rw [hmain]
    exact habort _ (Or.inr (Or.inl rfl))
  have hsumpos : countStatus SegStatus.summarized t.segs ≠ 0 := by omega
  have hgroq : callGroqApi true (Except.ok s) =
      ⟨GroqCallResult.success (strStrip s), 1⟩ := by
    simp [callGroqApi, href, hne]
  have hrun : generateFinalSummary ({ t with status := JobStatus.summarizing }) true
      (Except.ok s) =
      ⟨{ t with status := JobStatus.done, summaryExists := true, tempCustomPrompt := none },
        TaskOutcome.returned "success" "", 1, 1⟩ := by
    simp only [generateFinalSummary]
    rw [hgroq]
    simp [hnosum, hsumpos]
  refine ⟨habort, hmain, hsecond, ?_, ?_, ?_, ?_⟩ <;> rw [hmain] <;> simp [hrun]

/-- Witness for C1 at a one-segment Job whose segment is summarized. -/
theorem C1_final_summary_single_flight_witness :
    (checkAndGenerateFinalSummary
        ⟨JobStatus.transcribed, [SegStatus.summarized], false, none⟩).2 = 1 ∧
    (generateFinalSummary
        (checkAndGenerateFinalSummary
          ⟨JobStatus.transcribed, [SegStatus.summarized], false, none⟩).1 true
        (Except.ok "Resumen final")).summariesCreated = 1 := by
  have h := C1_final_summary_single_flight
    ⟨JobStatus.transcribed, [SegStatus.summarized], false, none⟩ "Resumen final"
    (by decide) (by decide) rfl (by decide) (by decide) (by decide) (by decide)
  exact ⟨by rw [h.2.1], h.2.2.2.1⟩

/-! ### Claim C8 -/

/-- C8: a Job in which zero segments are summarized never triggers final
synthesis: the fan-in guard enqueues nothing and changes nothing, the
final-summary task itself would issue no LM call and create no Summary
row, and in general an enqueue happens only when the summarized count
equals the done-or-summarized count and is strictly positive. -/
theorem C8_no_synthesis_without_summaries (t : Transcription)
    (h : countStatus SegStatus.summarized t.segs = 0) :
    checkAndGenerateFinalSummary t = (t, 0) ∧
    (∀ (k : Bool) (lm : Except String String),
        (generateFinalSummary t k lm).lmCalls = 0 ∧
        (generateFinalSummary t k lm).summariesCreated = 0) ∧
    (∀ u : Transcription, (checkAndGenerateFinalSummary u).2 ≠ 0 →
        0 < countStatus SegStatus.summarized u.segs ∧
        countStatus SegStatus.summarized u.segs =
          countStatus SegStatus.done u.segs + countStatus SegStatus.summarized u.segs) := by
  refine ⟨?_, ?_, ?_⟩
  · simp only [checkAndGenerateFinalSummary]
    rw [if_neg]
    rintro ⟨h1, h2⟩
    omega
  · intro k lm
    by_cases hse : t.summaryExists = true
    · simp [generateFinalSummary, hse]
    · simp only [Bool.not_eq_true] at hse
      simp [generateFinalSummary, hse, h]
  · intro u hu
    revert hu
    simp only [checkAndGenerateFinalSummary]
    split_ifs with hc hse hst <;> intro hu
    · exact absurd rfl hu
    · exact absurd rfl hu
    · exact ⟨by omega, hc.2⟩
    · exact absurd rfl hu

/-- Witness for C8 at a Job whose segments are done and failed with none
summarized. -/
theorem C8_no_synthesis_without_summaries_witness :
    checkAndGenerateFinalSummary
        ⟨JobStatus.transcribed, [SegStatus.done, SegStatus.failed], false, none⟩ =
      (⟨JobStatus.transcribed, [SegStatus.done, SegStatus.failed], false, none⟩, 0) :=
  (C8_no_synthesis_without_summaries
    ⟨JobStatus.transcribed, [SegStatus.done, SegStatus.failed], false, none⟩ (by decide)).1

/-! ### Claim C6 -/

theorem waitAttemptLoop_granted {c tk n : Nat}
    (h : (waitAttemptLoop c tk n).1 = true) :
    c + tk ≤ groqMaxTokensPerMinute ∧ (waitAttemptLoop c tk n).2.1 = c + tk := by
  induction n with
  | zero => simp [waitAttemptLoop] at h
  | succ n ih =>
    by_cases hc : c + tk ≤ groqMaxTokensPerMinute
    · simp [waitAttemptLoop, hc]
    · simp only [waitAttemptLoop, if_neg hc] at h ⊢
      exact ih h

theorem waitAttemptLoop_denied {c tk n : Nat}
    (h : (waitAttemptLoop c tk n).1 = false) :
    (waitAttemptLoop c tk n).2.1 = c := by
  induction n with
  | zero => simp [waitAttemptLoop]
  | succ n ih =>
    by_cases hc : c + tk ≤ groqMaxTokensPerMinute
    · simp [waitAttemptLoop, hc] at h
    · simp only [waitAttemptLoop, if_neg hc] at h ⊢
      exact ih h

theorem waitAttemptLoop_over {c tk : Nat} (h : groqMaxTokensPerMinute < c + tk) :
    ∀ n : Nat, waitAttemptLoop c tk n = (false, c, 5 * n) := by
  intro n
  induction n with
  | zero => simp [waitAttemptLoop]
  | succ n ih =>
    have hc : ¬ c + tk ≤ groqMaxTokensPerMinute := Nat.not_le.mpr h
    simp only [waitAttemptLoop, if_neg hc, ih]
    refine Prod.ext rfl (Prod.ext rfl ?_)
    simp [Nat.mul_succ]

theorem waitForRateLimit_counter_le {c tk mw : Nat} (hc : c ≤ groqMaxTokensPerMinute) :
    (waitForRateLimit true c tk mw).2.1 ≤ groqMaxTokensPerMinute := by
  have hw : waitForRateLimit true c tk mw = waitAttemptLoop c tk (mw / 5) := by
    simp [waitForRateLimit]
  rw [hw]
  cases hb : (waitAttemptLoop c tk (mw / 5)).1 with
  | false => rw [waitAttemptLoop_denied hb]; exact hc
  | true => rw [(waitAttemptLoop_granted hb).2]; exact (waitAttemptLoop_granted hb).1

theorem runReserveSequence_le (reqs : List (Nat × Nat)) :
    ∀ c : Nat, c ≤ groqMaxTokensPerMinute →
      runReserveSequence c reqs ≤ groqMaxTokensPerMinute := by
  induction reqs with
  | nil => intro c hc; simpa [runReserveSequence] using hc
  | cons hd tl ih =>
    intro c hc
    obtain ⟨tk, mw⟩ := hd
    simp only [runReserveSequence]
    exact ih _ (waitForRateLimit_counter_le hc)

/-- C6: the rate limiter increments the shared counter only when the
current usage plus the requested tokens fits under the budget, so across
any back-to-back sequence of reserve calls inside one window the counter
never exceeds the budget; an over-budget call sleeps a fixed 5-second
backoff per attempt, retries for maxWait div 5 attempts (never sleeping
past the maximum wait) and, when the wait is exhausted, returns failure
without incrementing. -/
theorem C6_rate_limiter_budget (counter tokens maxWait : Nat)
    (reqs : List (Nat × Nat)) (hc : counter ≤ groqMaxTokensPerMinute) :
    ((waitForRateLimit true counter tokens maxWait).1 = true →
       counter + tokens ≤ groqMaxTokensPerMinute ∧
       (waitForRateLimit true counter tokens maxWait).2.1 = counter + tokens) ∧
    ((waitForRateLimit true counter tokens maxWait).1 = false →
       (waitForRateLimit true counter tokens maxWait).2.1 = counter) ∧
    (waitForRateLimit true counter tokens maxWait).2.1 ≤ groqMaxTokensPerMinute ∧
    (groqMaxTokensPerMinute < counter + tokens →
       waitForRateLimit true counter tokens maxWait =
         (false, counter, 5 * (maxWait / 5)) ∧
       5 * (maxWait / 5) ≤ maxWait) ∧
    runReserveSequence counter reqs ≤ groqMaxTokensPerMinute := by
  have hw : waitForRateLimit true counter tokens maxWait =
      waitAttemptLoop counter tokens (maxWait / 5) := by
    simp [waitForRateLimit]
  refine ⟨?_, ?_, waitForRateLimit_counter_le hc, ?_, runReserveSequence_le reqs counter hc⟩
  · intro hg
    rw [hw] at hg ⊢
    exact waitAttemptLoop_granted hg
  · intro hg
    rw [hw] at hg ⊢
    exact waitAttemptLoop_denied hg
  · intro hover
    rw [hw, waitAttemptLoop_over hover]
    refine ⟨rfl, ?_⟩
    calc 5 * (maxWait / 5) = maxWait / 5 * 5 := Nat.mul_comm _ _
    _ ≤ maxWait := Nat.div_mul_le_self maxWait 5

/-- Witness for C6: usage 8950 of the 9000 budget, a request of 100 tokens
with a 60-second maximum wait is denied after twelve 5-second sleeps and
the counter is not incremented. -/
theorem C6_rate_limiter_budget_witness :
    waitForRateLimit true 8950 100 60 = (false, 8950, 60) :=
  ((C6_rate_limiter_budget 8950 100 60 [] (by decide)).2.2.2.1 (by decide)).1

/-! ### Claim C7 -/

/-- C7: re-running the per-segment summarization task on a segment that is
already summarized with a stored summary, or on a segment that is not done
with a non-empty transcript, returns skipped, performs no external LM call,
invokes no downstream check and leaves the segment row unchanged; both
precondition guards run before any external call. -/
theorem C7_summary_worker_idempotent (chunk : TranscriptionChunk)
    (retries maxRetries : Nat) (apiKey : Bool) (lm : Except String String)
    (h : (optTruthy chunk.summary = true ∧ chunk.status = SegStatus.summarized) ∨
         ¬ (chunk.status = SegStatus.done ∧ optTruthy chunk.text = true)) :
    ((generateChunkSummary chunk retries maxRetries apiKey lm).outcome =
        TaskOutcome.returned "skipped" "already_summarized" ∨
      (generateChunkSummary chunk retries maxRetries apiKey lm).outcome =
        TaskOutcome.returned "skipped" "chunk_not_transcribed") ∧
    (generateChunkSummary chunk retries maxRetries apiKey lm).chunk = chunk ∧
    (generateChunkSummary chunk retries maxRetries apiKey lm).lmCalls = 0 ∧
    (generateChunkSummary chunk retries maxRetries apiKey lm).finalCheckInvoked = false := by
  by_cases h1 : (optTruthy chunk.summary && decide (chunk.status = SegStatus.summarized)) = true
  · simp [generateChunkSummary, h1]
  · have hguard2 : (!(optTruthy chunk.text) || decide (chunk.status ≠ SegStatus.done)) = true := by
      rcases h with ⟨ha, hb⟩ | hnot
      · exact absurd (by simp [ha, hb]) h1
      · by_cases hd : chunk.status = SegStatus.done
        · have htxt : optTruthy chunk.text = false := by
            cases hx : optTruthy chunk.text with
            | false => rfl
            | true => exact absurd ⟨hd, hx⟩ hnot
          simp [htxt]
        · simp [hd]
    simp only [generateChunkSummary]
    rw [if_neg h1, if_pos hguard2]
    exact ⟨Or.inr rfl, rfl, rfl, rfl⟩

/-- Witness for C7 at an already summarized segment. -/
theorem C7_summary_worker_idempotent_witness :
    (generateChunkSummary ⟨SegStatus.summarized, some "texto", some "resumen"⟩ 0 5 true
        (Except.ok "x")).lmCalls = 0 :=
  (C7_summary_worker_idempotent ⟨SegStatus.summarized, some "texto", some "resumen"⟩ 0 5 true
    (Except.ok "x") (Or.inl (by decide))).2.2.1

/-! ### Claim C9 -/

/-- C9: an LM response whose text matches a known refusal pattern is
classified by the call layer as the failure content_rejected_by_model, not
as success, and the summarization task then leaves the segment row exactly
as it was: the refusal text is never stored as the segment summary and the
segment does not become summarized. -/
theorem C9_refusal_never_stored (chunk : TranscriptionChunk)
    (retries maxRetries : Nat) (content : String)
    (href : refusalDetected (strStrip content) = true) :
    callGroqApi true (Except.ok content) =
      ⟨GroqCallResult.failure "content_rejected_by_model", 1⟩ ∧
    (generateChunkSummary chunk retries maxRetries true (Except.ok content)).chunk = chunk ∧
    ((generateChunkSummary chunk retries maxRetries true (Except.ok content)).outcome =
        TaskOutcome.returned "success" "" → False) := by
  have hg : callGroqApi true (Except.ok content) =
      ⟨GroqCallResult.failure "content_rejected_by_model", 1⟩ := by
    simp [callGroqApi, href]
  have hrl : rateLimitLike "content_rejected_by_model" = false := by decide
  have hto : timeoutLike "content_rejected_by_model" = false := by decide
  have hrun : (generateChunkSummary chunk retries maxRetries true (Except.ok content)).chunk
        = chunk ∧
      ((generateChunkSummary chunk retries maxRetries true (Except.ok content)).outcome =
        TaskOutcome.returned "success" "" → False) := by
    simp only [generateChunkSummary]
    split_ifs with h1 h2
    · exact ⟨rfl, by simp⟩
    · exact ⟨rfl, by simp⟩
    · rw [hg]
      simp [hrl, hto]
  exact ⟨hg, hrun.1, hrun.2⟩

/-- Witness for C9 at a concrete refusal text. -/
theorem C9_refusal_never_stored_witness :
    callGroqApi true (Except.ok "Lo siento, no puedo ayudar con eso.") =
      ⟨GroqCallResult.failure "content_rejected_by_model", 1⟩ :=
  (C9_refusal_never_stored ⟨SegStatus.done, some "texto", none⟩ 0 5
    "Lo siento, no puedo ayudar con eso." (by decide)).1

/-! ### Claim C10 -/

/-- C10: when the external LM call fails with an error that is neither
rate-limit-like nor timeout-like, the summarization task returns a failed
result but leaves the segment row completely unchanged: the segment stays
done with its summary field untouched, and no downstream rollup or fan-in
check is invoked, so this failure alone cannot move the parent Job. -/
theorem C10_permanent_failure_no_state_change (chunk : TranscriptionChunk)
    (retries maxRetries : Nat) (apiKey : Bool) (lm : Except String String) (e : String)
    (hdone : chunk.status = SegStatus.done) (htext : optTruthy chunk.text = true)
    (hg : callGroqApi apiKey lm = ⟨GroqCallResult.failure e, (callGroqApi apiKey lm).lmCalls⟩)
    (hrl : rateLimitLike e = false) (hto : timeoutLike e = false) :
    (generateChunkSummary chunk retries maxRetries apiKey lm).outcome =
      TaskOutcome.returned "failed" e ∧
    (generateChunkSummary chunk retries maxRetries apiKey lm).chunk = chunk ∧
    (generateChunkSummary chunk retries maxRetries apiKey lm).chunk.status = SegStatus.done ∧
    (generateChunkSummary chunk retries maxRetries apiKey lm).chunk.summary = chunk.summary ∧
    (generateChunkSummary chunk retries maxRetries apiKey lm).finalCheckInvoked = false := by
  have h1 : (optTruthy chunk.summary && decide (chunk.status = SegStatus.summarized)) = false := by
    simp [hdone]
  have h2 : (!(optTruthy chunk.text) || decide (chunk.status ≠ SegStatus.done)) = false := by
    simp [hdone, htext]
  have hrun : generateChunkSummary chunk retries maxRetries apiKey lm =
      ⟨TaskOutcome.returned "failed" e, chunk, (callGroqApi apiKey lm).lmCalls, false⟩ := by
    simp only [generateChunkSummary, h1, h2]
    rw [hg]
    simp [hrl, hto]
  rw [hrun]
  exact ⟨rfl, rfl, hdone, rfl, rfl⟩

/-- Witness for C10: a client exception that is neither a rate limit nor a
timeout leaves a done segment untouched. -/
theorem C10_permanent_failure_no_state_change_witness :
    (generateChunkSummary ⟨SegStatus.done, some "texto", none⟩ 0 5 true
        (Except.error "boom")).chunk = ⟨SegStatus.done, some "texto", none⟩ :=
  (C10_permanent_failure_no_state_change ⟨SegStatus.done, some "texto", none⟩ 0 5 true
    (Except.error "boom") "groq_api_error: boom" rfl (by decide) (by decide)
    (by decide) (by decide)).2.1

/-! ### Claim C5 -/

/-- C5 counterexample: on a valid upload whose chunking and enqueueing
succeed, the handler responds 201 immediately while the Job status is
still transcribing and no Summary exists — so a 201 response does not mean
the pipeline reached done, and a Job still processing is never answered
with 202: the handler contains no poll loop at all. -/
theorem C5_upload_immediate_201_counterexample :
    (upload true true true 2).code = 201 ∧
    (upload true true true 2).job =
      some ⟨JobStatus.transcribing, [SegStatus.ready, SegStatus.ready], false, none⟩ ∧
    JobStatus.transcribing ≠ JobStatus.done := by
  decide

/-- C5 (amended): the upload handler does not wait on the pipeline: it
returns 400 when validation fails; 500 with the Job marked failed when
chunking fails; 201 with the Job left at chunked when the enqueue block
fails; and otherwise 201 immediately after enqueuing, with the Job status
transcribing, every chunk ready and no Summary in existence. -/
theorem C5_upload_returns_immediately (valid chunkingOk enqueueOk : Bool) (n : Nat) :
    (valid = false → upload valid chunkingOk enqueueOk n = ⟨400, none⟩) ∧
    (valid = true → chunkingOk = false →
       upload valid chunkingOk enqueueOk n =
         ⟨500, some ⟨JobStatus.failed, [], false, none⟩⟩) ∧
    (valid = true → chunkingOk = true → enqueueOk = false →
       upload valid chunkingOk enqueueOk n =
         ⟨201, some ⟨JobStatus.chunked, List.replicate n SegStatus.ready, false, none⟩⟩) ∧
    (valid = true → chunkingOk = true → enqueueOk = true →
       upload valid chunkingOk enqueueOk n =
         ⟨201, some ⟨JobStatus.transcribing, List.replicate n SegStatus.ready, false, none⟩⟩) := by
  refine ⟨?_, ?_, ?_, ?_⟩ <;> intros <;> subst_vars <;> simp [upload]

/-- Witness for C5 (amended) at a failed-validation request. -/
theorem C5_upload_returns_immediately_witness :
    upload false true true 0 = ⟨400, none⟩ :=
  (C5_upload_returns_immediately false true true 0).1 rfl

end Atenas
